import Mathlib

/-!
Verification of the SageMaker asynchronous-inference walkthrough notebook
(src/HuggingFace-Async-Inference-Walkthrough.ipynb).

The notebook is a straight-line orchestration: create a model, create an
endpoint configuration, create an endpoint, wait for it, invoke it
asynchronously in a loop, and attempt a cleanup.  The requests it sends are
embedded below as concrete record values, and the sequence of control-plane
and runtime calls as a list.  The invocation-client contract (submit,
await_ready, poll_result) lives in the managed service, not in the
repository; it is modelled from the specification in a later section.
-/

/-! ### String constants of the notebook

The bucket and role are runtime values; the literals below are the values
recorded in the notebook's captured output (Region = us-west-2,
default bucket sagemaker-us-west-2-976939723775). -/

/-- Recorded value of sm_session.default_bucket(). -/
def s3_bucket : String := "sagemaker-us-west-2-976939723775"

/-- The notebook's S3 key path variable (set to the literal below in the
source; its source name carries an underscore-separated suffix that is kept
out of Lean identifiers here). -/
def s3_keypath : String := "huggingface/hf_hub"

/-- Recorded IAM role literal assigned to the role variable. -/
def role : String :=
  "arn:aws:iam::976939723775:role/service-role/AmazonSageMaker-ExecutionRole-20210317T133000"

/-- Recorded value of image_uris.retrieve for the Hugging Face inference
container. -/
def ecr_image : String :=
  "763104351884.dkr.ecr.us-west-2.amazonaws.com/huggingface-pytorch-inference:1.10.2-transformers4.17.0-cpu-py38-ubuntu20.04"

/-- MODEL_DATA_URL, built from the bucket and key path as in the source
f-string. -/
def MODEL_DATA_URL : String :=
  "s3://" ++ s3_bucket ++ "/" ++ s3_keypath ++ "/sentimentanalysis.tar.gz"

/-- model_name, assigned the literal below. -/
def model_name : String := "beto-sentiment-analysis-async-1005"

/-- endpoint_config_name is assigned model_name. -/
def endpoint_config_name : String := model_name

/-- endpoint_name is assigned model_name in the create-endpoint cell and is
never referenced afterwards. -/
def endpoint_name : String := model_name

/-- input_s3_location, built as in the source f-string. -/
def input_s3_location : String :=
  "s3://" ++ s3_bucket ++ "/" ++ s3_keypath ++ "/input.json"

/-- S3OutputPath of the AsyncInferenceConfig OutputConfig. -/
def s3OutputPath : String :=
  "s3://" ++ s3_bucket ++ "/" ++ s3_keypath ++ "/output"

/-! ### The requests the notebook sends -/

/-- Arguments of sagemaker_client.create_model. -/
structure CreateModelRequest where
  ModelName : String
  ExecutionRoleArn : String
  Image : String
  ModelDataUrl : String
  HF_MODEL_ID : String
  HF_TASK : String
deriving DecidableEq

/-- The create_model call of section 1.1. -/
def createModelRequest : CreateModelRequest :=
  { ModelName := model_name
    ExecutionRoleArn := role
    Image := ecr_image
    ModelDataUrl := MODEL_DATA_URL
    HF_MODEL_ID := "finiteautomata/beto-sentiment-analysis"
    HF_TASK := "text-classification" }

/-- Arguments of sagemaker_client.create_endpoint_config. -/
structure CreateEndpointConfigRequest where
  EndpointConfigName : String
  VariantName : String
  ModelName : String
  InstanceType : String
  InitialInstanceCount : Nat
  MaxConcurrentInvocationsPerInstance : Nat
  S3OutputPath : String
deriving DecidableEq

/-- The create_endpoint_config call of section 1.2. -/
def createEndpointConfigRequest : CreateEndpointConfigRequest :=
  { EndpointConfigName := endpoint_config_name
    VariantName := "variant-1"
    ModelName := model_name
    InstanceType := "ml.m5.xlarge"
    InitialInstanceCount := 1
    MaxConcurrentInvocationsPerInstance := 10
    S3OutputPath := s3OutputPath }

/-- Arguments of sagemaker_client.create_endpoint. -/
structure CreateEndpointRequest where
  EndpointName : String
  EndpointConfigName : String
deriving DecidableEq

/-- The create_endpoint call of section 1.3: both arguments are string
literals in the source, not the variables assigned earlier. -/
def createEndpointRequest : CreateEndpointRequest :=
  { EndpointName := "HuggingFaceAsyncEndpoint"
    EndpointConfigName := "beto-sentiment-analysis-async" }

/-- Arguments of sm_runtime.invoke_endpoint_async. -/
structure InvokeEndpointAsyncRequest where
  EndpointName : String
  InputLocation : String
  ContentType : String
deriving DecidableEq

/-- The request sent by every iteration of the invocation loop. -/
def invokeEndpointAsyncRequest : InvokeEndpointAsyncRequest :=
  { EndpointName := "HuggingFaceAsyncEndpoint"
    InputLocation := input_s3_location
    ContentType := "application/json" }

/-- Arguments of the attempted deregister_scalable_target call in the
cleanup section. -/
structure DeregisterScalableTargetRequest where
  ServiceNamespace : String
  ResourceId : String
  ScalableDimension : String
deriving DecidableEq

/-- The cleanup cell's attempted request. -/
def deregisterScalableTargetRequest : DeregisterScalableTargetRequest :=
  { ServiceNamespace := "sagemaker"
    ResourceId := "resource_id"
    ScalableDimension := "sagemaker:variant:DesiredInstanceCount" }

/-! ### The notebook as a sequence of calls -/

/-- One call the notebook makes against the control plane or runtime. -/
inductive Op where
  | create_model (req : CreateModelRequest)
  | create_endpoint_config (req : CreateEndpointConfigRequest)
  | create_endpoint (req : CreateEndpointRequest)
  | waiter_wait (EndpointName : String)
  | describe_endpoint (EndpointName : String)
  | invoke_endpoint_async (req : InvokeEndpointAsyncRequest)
  | deregister_scalable_target (req : DeregisterScalableTargetRequest)
  | delete_endpoint (EndpointName : String)
deriving DecidableEq

/-- SDK operation name of a call. -/
def opName : Op → String
  | .create_model _ => "create_model"
  | .create_endpoint_config _ => "create_endpoint_config"
  | .create_endpoint _ => "create_endpoint"
  | .waiter_wait _ => "waiter_wait"
  | .describe_endpoint _ => "describe_endpoint"
  | .invoke_endpoint_async _ => "invoke_endpoint_async"
  | .deregister_scalable_target _ => "deregister_scalable_target"
  | .delete_endpoint _ => "delete_endpoint"

/-- The EndpointName argument a call carries, when it has one. -/
def endpointNameOf : Op → Option String
  | .create_model _ => none
  | .create_endpoint_config _ => none
  | .create_endpoint req => some req.EndpointName
  | .waiter_wait n => some n
  | .describe_endpoint n => some n
  | .invoke_endpoint_async req => some req.EndpointName
  | .deregister_scalable_target _ => none
  | .delete_endpoint n => some n

/-- Section 1: the three setup calls, in source order. -/
def setupOps : List Op :=
  [ .create_model createModelRequest
  , .create_endpoint_config createEndpointConfigRequest
  , .create_endpoint createEndpointRequest ]

/-- The invocation loop: for i in range(5000), the same request every
iteration (the loop body does not depend on i). -/
def invokeLoopOps : List Op :=
  (List.range 5000).map (fun _ => Op.invoke_endpoint_async invokeEndpointAsyncRequest)

/-- Every call made after create_endpoint, in source order: the waiter, the
describe in the wait cell, the describe in section 2, then the invocation
loop. -/
def useOps : List Op :=
  [ Op.waiter_wait "HuggingFaceAsyncEndpoint"
  , Op.describe_endpoint "HuggingFaceAsyncEndpoint"
  , Op.describe_endpoint "HuggingFaceAsyncEndpoint" ]
  ++ invokeLoopOps

/-- Section 3 (cleanup): the single attempted call. -/
def cleanupAttemptedOps : List Op :=
  [ Op.deregister_scalable_target deregisterScalableTargetRequest ]

/-- Every call the notebook attempts, in source order. -/
def notebookOps : List Op := setupOps ++ useOps ++ cleanupAttemptedOps

/-- Endpoint names used by the calls after create_endpoint. -/
def postCreationEndpointNames : List String := useOps.filterMap endpointNameOf

/-! ### Dataflow of the invocation loop

The loop rebinds the response variable each iteration; after the loop the
notebook reads OutputLocation of the value left in that variable.  The
service's reply to iteration i is abstracted as resp i. -/

/-- Value of the response variable after the loop, given the service's
reply to each iteration. -/
def loopFinalResponse (resp : Nat → String) : Option String :=
  (List.range 5000).foldl (fun _ i => some (resp i)) none

/-- The only read of any invocation response in the notebook: the
OutputLocation of whatever the loop left in the response variable. -/
def outputLocationRead (resp : Nat → String) : Option String :=
  loopFinalResponse resp

/-! ### Attribute resolution on the SDK client

The cleanup cell's recorded traceback shows botocore's client getattr
raising AttributeError for an operation name the client does not define,
before any request is sent.  deregister_scalable_target is an Application
Auto Scaling operation and is not among the SageMaker client's operations
(the traceback records exactly this failure). -/

/-- Operations of the SageMaker control-plane client that the notebook and
the specification's control-plane interface use.  The Application Auto
Scaling operation deregister_scalable_target is not one of them. -/
def sageMakerClientOperations : List String :=
  [ "create_model", "create_endpoint_config", "create_endpoint", "get_waiter"
  , "describe_endpoint", "delete_endpoint", "delete_endpoint_config", "delete_model" ]

/-- botocore client attribute lookup as recorded in the traceback: an
unknown operation name raises AttributeError instead of producing a callable,
so no request is ever sent for it. -/
def resolveClientMethod (ops : List String) (item : String) : Except String String :=
  if item ∈ ops then .ok item else
    .error ("AttributeError: SageMaker object has no attribute " ++ item)

/-- Running the cleanup section: the one attempted call first resolves its
method on the client; resolution fails, so the run aborts with the
AttributeError and no call is issued. -/
def runCleanup : Except String (List Op) :=
  match resolveClientMethod sageMakerClientOperations "deregister_scalable_target" with
  | .error e => .error e
  | .ok _ => .ok cleanupAttemptedOps

/-! ### The recorded sample payloads

Section 2 shows the sample input placed at the input location and the
processed inference output placed at the output location.  Scores are
recorded with sixteen decimal digits; they are embedded as integers scaled
by ten to the sixteenth. -/

/-- The four input lines of the recorded input.json sample. -/
def sampleInputs : List String :=
  [ "I like you. I love you"
  , "This is sad"
  , "am so happy that i want to cry"
  , "async endpoints are awesome" ]

/-- The recorded inference output: label and score (score scaled by
ten to the sixteenth), in recorded order. -/
def sampleOutput : List (String × Nat) :=
  [ ("POS", 9982852339744568)
  , ("NEG", 9333241581916809)
  , ("POS", 5957835316658020)
  , ("NEU", 9964613318443298) ]

/-- Round a score scaled by ten to the sixteenth to the nearest thousandth,
returned in thousandths. -/
def roundMilli (n : Nat) : Nat := (n + 5 * 10 ^ 12) / 10 ^ 13

/-! ### The Invocation Client, modelled from the specification

The submit / await_ready / poll_result contract is implemented by the
managed service and its SDK, not by code in the repository; the notebook
only calls it.  The definitions below follow section 4.1 of the
specification. -/

/-- Modelled from the spec: the Endpoint status values of the endpoint
state machine (Creating, InService, Updating, Failed, Deleting, Deleted). -/
inductive EndpointStatus where
  | Creating
  | InService
  | Updating
  | Failed
  | Deleting
  | Deleted
deriving DecidableEq

/-- Modelled from the spec: the error taxonomy of the invocation client
(EndpointNotReady, InvalidReference, ThrottingOrCapacity as the spec spells
it, Timeout, ProvisioningFailed). -/
inductive ClientError where
  | EndpointNotReady
  | InvalidReference
  | ThrottingOrCapacity
  | Timeout
  | ProvisioningFailed
deriving DecidableEq

/-- Modelled from the spec: the remote service's observable state — the
endpoints with their statuses, a counter for fresh invocation references,
and the object store (location to bytes). -/
structure ServiceState where
  endpoints : List (String × EndpointStatus)
  nextId : Nat
  objects : List (String × String)
deriving DecidableEq

/-- Status of a named endpoint, as describe_endpoint reports it. -/
def lookupStatus (s : ServiceState) (name : String) : Option EndpointStatus :=
  (s.endpoints.find? (fun p => p.1 == name)).map (fun p => p.2)

/-- Object storage get(location): the bytes, or none when absent. -/
def getObject (objects : List (String × String)) (loc : String) : Option String :=
  (objects.find? (fun p => p.1 == loc)).map (fun p => p.2)

/-- Little-endian decimal digits of a number, with explicit fuel so the
definition is structural. -/
def decDigitsCore : Nat → Nat → List Nat
  | 0, _ => []
  | fuel + 1, n => if n = 0 then [] else n % 10 :: decDigitsCore fuel (n / 10)

/-- Little-endian decimal digits of n. -/
def decDigits (n : Nat) : List Nat := decDigitsCore n n

/-- Value of a little-endian digit list; inverse of decDigits. -/
def undigits : List Nat → Nat
  | [] => 0
  | d :: ds => d + 10 * undigits ds

/-- Decimal rendering of n. -/
def digitStr (n : Nat) : String :=
  String.mk (((decDigits n).reverse).map Nat.digitChar)

/-- Modelled from the spec: the deterministic-but-opaque output reference
issued for the invocation with a given id, under the configured
S3OutputPath. -/
def outLoc (n : Nat) : String :=
  s3OutputPath ++ "/" ++ digitStr n ++ ".out"

/-- Modelled from the spec: the receipt for a submitted request — an output
location where the result will eventually be written, and an optional
failure location. -/
structure InvocationToken where
  output_location : String
  failure_location : Option String
deriving DecidableEq

/-- Modelled from the spec: submit(endpoint_name, input_location,
content_type).  Fails with EndpointNotReady unless the endpoint is
InService; fails with InvalidReference when the input location is not an
accessible object; on success returns a token with a fresh output location
and advances the freshness counter.  The capacity-rejection path
(ThrottingOrCapacity) is a service-side admission decision the spec gives
no criterion for and is not modelled. -/
def submit (s : ServiceState) (ep_name input_location content_type : String) :
    Except ClientError (InvocationToken × ServiceState) :=
  match lookupStatus s ep_name with
  | some .InService =>
    match getObject s.objects input_location with
    | none => .error .InvalidReference
    | some _ =>
      .ok ( { output_location := outLoc s.nextId, failure_location := none }
          , { s with nextId := s.nextId + 1 } )
  | _ => .error .EndpointNotReady

/-- Modelled from the spec: await_ready(endpoint_name, timeout) polls
describe_endpoint once per interval.  It returns InService immediately when
the endpoint is in service, fails with ProvisioningFailed when the
endpoint is in the failure state, and fails with Timeout when the budget
elapses first.  Polling sends no mutating call, so the service state is
returned unchanged. -/
def await_ready (s : ServiceState) (name : String) :
    Nat → (Except ClientError EndpointStatus) × ServiceState
  | 0 =>
    match lookupStatus s name with
    | some .InService => (.ok .InService, s)
    | some .Failed => (.error .ProvisioningFailed, s)
    | _ => (.error .Timeout, s)
  | t + 1 =>
    match lookupStatus s name with
    | some .InService => (.ok .InService, s)
    | some .Failed => (.error .ProvisioningFailed, s)
    | _ => await_ready s name t

/-- Modelled from the spec: the result states poll_result can observe. -/
inductive ResultState where
  | Pending
  | Succeeded (payload : String)
  | Failed (error_payload : String)
deriving DecidableEq

/-- Modelled from the spec: the distinct failure location paired with an
output location. -/
def failureLoc (output_location : String) : String := output_location ++ ".failure"

/-- Modelled from the spec: poll_result(output_location) — Succeeded when
the object is present, Failed when instead the distinct failure location is
populated, Pending when neither holds.  It reads the store and never
errs. -/
def poll_result (objects : List (String × String)) (output_location : String) :
    ResultState :=
  match getObject objects output_location with
  | some payload => .Succeeded payload
  | none =>
    match getObject objects (failureLoc output_location) with
    | some e => .Failed e
    | none => .Pending

/-! ### Helper lemmas -/

theorem decDigitsCore_lt_ten (fuel : Nat) :
    ∀ n d, d ∈ decDigitsCore fuel n → d < 10 := by
  induction fuel with
  | zero => intro n d h; simp [decDigitsCore] at h
  | succ fuel ih =>
    intro n d h
    by_cases hn : n = 0
    · simp [decDigitsCore, hn] at h
    · simp [decDigitsCore, hn] at h
      rcases h with h | h
      · exact h ▸ Nat.mod_lt n (by decide)
      · exact ih _ _ h

theorem undigits_decDigitsCore (fuel : Nat) :
    ∀ n, n ≤ fuel → undigits (decDigitsCore fuel n) = n := by
  induction fuel with
  | zero =>
    intro n h
    have : n = 0 := Nat.le_zero.mp h
    simp [decDigitsCore, undigits, this]
  | succ fuel ih =>
    intro n h
    by_cases hn : n = 0
    · simp [decDigitsCore, hn, undigits]
    · have hpos : 0 < n := Nat.pos_of_ne_zero hn
      have hdiv : n / 10 ≤ fuel := by
        have : n / 10 < n := Nat.div_lt_self hpos (by decide)
        omega
      simp [decDigitsCore, hn, undigits, ih _ hdiv]
      exact Nat.mod_add_div n 10

theorem string_eq_of_data_eq (a b : String) (h : a.data = b.data) : a = b := by
  cases a; cases b; exact congrArg String.mk h

theorem decDigits_injective (m n : Nat) (h : decDigits m = decDigits n) : m = n := by
  have h2 := congrArg undigits h
  rw [show decDigits m = decDigitsCore m m from rfl,
    show decDigits n = decDigitsCore n n from rfl,
    undigits_decDigitsCore m m le_rfl, undigits_decDigitsCore n n le_rfl] at h2
  exact h2

theorem digitChar_inj_of_lt (a b : Nat) (ha : a < 10) (hb : b < 10)
    (h : Nat.digitChar a = Nat.digitChar b) : a = b := by
  interval_cases a <;> interval_cases b <;> first | rfl | (exfalso; revert h; decide)

theorem map_digitChar_inj :
    ∀ l1 l2 : List Nat, (∀ d ∈ l1, d < 10) → (∀ d ∈ l2, d < 10) →
      l1.map Nat.digitChar = l2.map Nat.digitChar → l1 = l2 := by
  intro l1
  induction l1 with
  | nil => intro l2 _ _ h; cases l2 with
    | nil => rfl
    | cons b bs => simp at h
  | cons a as ih =>
    intro l2 h1 h2 h
    cases l2 with
    | nil => simp at h
    | cons b bs =>
      simp only [List.map_cons, List.cons.injEq] at h
      have ha : a < 10 := h1 a (List.mem_cons_self a as)
      have hb : b < 10 := h2 b (List.mem_cons_self b bs)
      have hab : a = b := digitChar_inj_of_lt a b ha hb h.1
      have htl : as = bs :=
        ih bs (fun d hd => h1 d (List.mem_cons_of_mem a hd))
          (fun d hd => h2 d (List.mem_cons_of_mem b hd)) h.2
      rw [hab, htl]

theorem digitStr_injective (m n : Nat) (h : digitStr m = digitStr n) : m = n := by
  have hdata : ((decDigits m).reverse.map Nat.digitChar)
      = ((decDigits n).reverse.map Nat.digitChar) := congrArg String.data h
  have hrev : (decDigits m).reverse = (decDigits n).reverse :=
    map_digitChar_inj _ _
      (fun d hd => decDigitsCore_lt_ten m m d (List.mem_reverse.mp hd))
      (fun d hd => decDigitsCore_lt_ten n n d (List.mem_reverse.mp hd)) hdata
  exact decDigits_injective m n (List.reverse_injective hrev)

theorem outLoc_injective (m n : Nat) (h : outLoc m = outLoc n) : m = n := by
  have hdata := congrArg String.data h
  simp only [outLoc, String.data_append] at hdata
  have h1 : (digitStr m).data ++ ".out".data = (digitStr n).data ++ ".out".data := by
    have := List.append_cancel_left (List.append_assoc _ _ _ ▸ hdata :
      (s3OutputPath ++ "/").data ++ ((digitStr m).data ++ ".out".data)
        = (s3OutputPath ++ "/").data ++ ((digitStr n).data ++ ".out".data))
    exact this
  have h2 : (digitStr m).data = (digitStr n).data := List.append_cancel_right h1
  exact digitStr_injective m n (string_eq_of_data_eq _ _ h2)

theorem outLoc_ne_empty (n : Nat) : outLoc n ≠ "" := by
  intro h
  have hdata := congrArg String.data h
  simp only [outLoc, String.data_append] at hdata
  have : "s3://".data ≠ ([] : List Char) := by decide
  simp only [s3OutputPath, String.data_append] at hdata
  simp [List.append_eq_nil] at hdata

theorem await_ready_state_unchanged (s : ServiceState) (name : String) :
    ∀ t, (await_ready s name t).2 = s := by
  intro t
  induction t with
  | zero =>
    simp only [await_ready]
    cases lookupStatus s name with
    | none => rfl
    | some st => cases st <;> rfl
  | succ t ih =>
    simp only [await_ready]
    cases lookupStatus s name with
    | none => exact ih
    | some st => cases st <;> first | rfl | exact ih

theorem foldl_last_range (resp : Nat → String) (init : Option String) :
    ∀ n, (List.range (n + 1)).foldl (fun _ i => some (resp i)) init = some (resp n) := by
  intro n
  induction n generalizing init with
  | zero => rfl
  | succ n ih =>
    rw [List.range_succ, List.foldl_append]
    rfl

theorem mem_invokeLoopOps (o : Op) (h : o ∈ invokeLoopOps) :
    o = Op.invoke_endpoint_async invokeEndpointAsyncRequest := by
  simp only [invokeLoopOps, List.mem_map, List.mem_range] at h
  obtain ⟨i, _, ho⟩ := h
  exact ho.symm

theorem mem_postCreationEndpointNames (n : String) (h : n ∈ postCreationEndpointNames) :
    n = "HuggingFaceAsyncEndpoint" := by
  simp only [postCreationEndpointNames, useOps, List.filterMap_append, List.mem_append] at h
  rcases h with h | h
  · simpa [List.filterMap, endpointNameOf] using h
  · simp only [List.mem_filterMap] at h
    obtain ⟨o, ho, hname⟩ := h
    rw [mem_invokeLoopOps o ho] at hname
    simp only [endpointNameOf, invokeEndpointAsyncRequest] at hname
    exact (Option.some_inj.mp hname).symm

theorem mem_notebookOps_opName (o : Op) (h : o ∈ notebookOps) :
    opName o ≠ "delete_endpoint" := by
  rw [notebookOps] at h
  rcases List.mem_append.mp h with h1 | h4
  · rcases List.mem_append.mp h1 with h2 | h3
    · rw [setupOps] at h2
      rcases List.mem_cons.mp h2 with rfl | h2
      · decide
      rcases List.mem_cons.mp h2 with rfl | h2
      · decide
      rcases List.mem_cons.mp h2 with rfl | h2
      · decide
      exact absurd h2 (List.not_mem_nil o)
    · rw [useOps] at h3
      rcases List.mem_append.mp h3 with h5 | h6
      · rcases List.mem_cons.mp h5 with rfl | h5
        · decide
        rcases List.mem_cons.mp h5 with rfl | h5
        · decide
        rcases List.mem_cons.mp h5 with rfl | h5
        · decide
        exact absurd h5 (List.not_mem_nil o)
      · rw [mem_invokeLoopOps o h6]; decide
  · rw [cleanupAttemptedOps] at h4
    rcases List.mem_cons.mp h4 with rfl | h4
    · decide
    exact absurd h4 (List.not_mem_nil o)

/-! ### Claim theorems -/

/-- C1 counterexample: the configuration name passed to create_endpoint is
the literal beto-sentiment-analysis-async, which differs from the
EndpointConfigName beto-sentiment-analysis-async-1005 used in
create_endpoint_config, so the claimed identifier threading fails at the
create_endpoint step. -/
theorem c1_config_name_mismatch_counterexample :
    createEndpointRequest.EndpointConfigName ≠ createEndpointConfigRequest.EndpointConfigName := by
  decide

/-- C1 (amended): the model identifier threads from create_model into
create_endpoint_config, and the endpoint name threads from create_endpoint
into every later call; but the configuration name passed to create_endpoint
does not equal the configuration name used in create_endpoint_config. -/
theorem c1_identifier_threading_amended :
    createEndpointConfigRequest.ModelName = createModelRequest.ModelName ∧
    (∀ n ∈ postCreationEndpointNames, n = createEndpointRequest.EndpointName) ∧
    createEndpointRequest.EndpointConfigName ≠ createEndpointConfigRequest.EndpointConfigName := by
  refine ⟨rfl, ?_, by decide⟩
  intro n hn
  rw [mem_postCreationEndpointNames n hn]
  rfl

/-- C2 counterexample: no delete_endpoint call appears anywhere in the
notebook, so no run that reaches the cleanup step issues one. -/
theorem c2_no_delete_endpoint_counterexample :
    "delete_endpoint" ∉ notebookOps.map opName := by
  intro h
  obtain ⟨o, ho, hname⟩ := List.mem_map.mp h
  exact mem_notebookOps_opName o ho hname

/-- C2 (amended): the cleanup step issues no delete_endpoint call; its only
attempted operation is deregister_scalable_target, which itself fails to
resolve, and deleting the endpoint is left to the reader as a markdown
reminder, so the Endpoint entity does not end in the deleted state. -/
theorem c2_cleanup_no_delete_amended :
    cleanupAttemptedOps = [Op.deregister_scalable_target deregisterScalableTargetRequest] ∧
    (∀ o ∈ cleanupAttemptedOps, opName o ≠ "delete_endpoint") ∧
    runCleanup = Except.error
      "AttributeError: SageMaker object has no attribute deregister_scalable_target" := by
  refine ⟨rfl, ?_, by rfl⟩
  intro o ho
  rcases List.mem_cons.mp ho with rfl | ho
  · decide
  · exact absurd ho (List.not_mem_nil o)

/-- C7: the recorded sample inference output has exactly one label/score
pair per input line, in input order, with labels POS, NEG, POS, NEU and
scores rounding to 0.998, 0.933, 0.596 and 0.996 (scores embedded scaled by
ten to the sixteenth). -/
theorem c7_sample_inference_output :
    sampleOutput.length = sampleInputs.length ∧
    sampleOutput.map Prod.fst = ["POS", "NEG", "POS", "NEU"] ∧
    sampleOutput.map (fun p => roundMilli p.2) = [998, 933, 596, 996] := by
  refine ⟨rfl, rfl, by decide⟩

/-- C8: the invocation loop submits the identical request 5000 times (same
EndpointName, same InputLocation, ContentType application/json), and the
only OutputLocation read afterwards is the last response's: the read
depends only on the reply to iteration 4999, so the tokens of the first
4999 submissions are never checked. -/
theorem c8_invocation_loop_discards_tokens :
    invokeLoopOps.length = 5000 ∧
    (∀ o ∈ invokeLoopOps, o = Op.invoke_endpoint_async invokeEndpointAsyncRequest) ∧
    (∀ resp : Nat → String, outputLocationRead resp = some (resp 4999)) ∧
    (∀ resp resp2 : Nat → String, resp 4999 = resp2 4999 →
      outputLocationRead resp = outputLocationRead resp2) := by
  have hread : ∀ resp : Nat → String, outputLocationRead resp = some (resp 4999) :=
    fun resp => foldl_last_range resp none 4999
  refine ⟨by simp only [invokeLoopOps, List.length_map, List.length_range], mem_invokeLoopOps, hread, ?_⟩
  intro resp resp2 hlast
  rw [hread resp, hread resp2, hlast]

/-- C9: the cleanup cell calls deregister_scalable_target on the SageMaker
control-plane client, an operation the client does not define (it belongs
to Application Auto Scaling), so attribute resolution raises AttributeError
before any request is sent and cleanup deregisters and deletes nothing. -/
theorem c9_cleanup_attribute_error :
    "deregister_scalable_target" ∉ sageMakerClientOperations ∧
    resolveClientMethod sageMakerClientOperations "deregister_scalable_target"
      = Except.error
        "AttributeError: SageMaker object has no attribute deregister_scalable_target" ∧
    runCleanup = Except.error
      "AttributeError: SageMaker object has no attribute deregister_scalable_target" ∧
    (∀ issued : List Op, runCleanup ≠ Except.ok issued) := by
  have hrun : runCleanup = Except.error
      "AttributeError: SageMaker object has no attribute deregister_scalable_target" := by
    rfl
  refine ⟨by decide, by rfl, hrun, ?_⟩
  intro issued hok
  rw [hrun] at hok
  exact Except.noConfusion hok

/-- C10: every call after create_endpoint carries the literal endpoint name
HuggingFaceAsyncEndpoint, the same name passed to create_endpoint, while
the endpoint_name variable (holding beto-sentiment-analysis-async-1005) is
never used by any of those calls nor by create_endpoint itself. -/
theorem c10_endpoint_name_consistency :
    createEndpointRequest.EndpointName = "HuggingFaceAsyncEndpoint" ∧
    (∀ n ∈ postCreationEndpointNames, n = createEndpointRequest.EndpointName) ∧
    endpoint_name = "beto-sentiment-analysis-async-1005" ∧
    endpoint_name ∉ postCreationEndpointNames ∧
    endpoint_name ≠ createEndpointRequest.EndpointName ∧
    endpoint_name ≠ createEndpointRequest.EndpointConfigName := by
  refine ⟨rfl, ?_, rfl, ?_, by decide, by decide⟩
  · intro n hn
    rw [mem_postCreationEndpointNames n hn]
    rfl
  · intro hmem
    have := mem_postCreationEndpointNames endpoint_name hmem
    exact absurd this (by decide)

theorem submit_ok_shape (s : ServiceState) (n i c : String) (t : InvocationToken)
    (s2 : ServiceState) (h : submit s n i c = Except.ok (t, s2)) :
    t.output_location = outLoc s.nextId ∧ s2.nextId = s.nextId + 1 ∧
    lookupStatus s n = some EndpointStatus.InService := by
  cases hs : lookupStatus s n with
  | none => simp [submit, hs] at h
  | some st =>
    cases st
    case InService =>
      cases ho : getObject s.objects i with
      | none => simp [submit, hs, ho] at h
      | some payload =>
        simp only [submit, hs, ho, Except.ok.injEq, Prod.mk.injEq] at h
        obtain ⟨ht, hs2⟩ := h
        subst ht
        subst hs2
        exact ⟨rfl, rfl, rfl⟩
    all_goals simp [submit, hs] at h

/-- C3: a submit call against an endpoint that is not InService (for
example still Creating) fails with EndpointNotReady, and no submission
against that endpoint succeeds while it has not reached the ready
status. -/
theorem c3_submit_requires_in_service (s : ServiceState) (name inp ct : String)
    (h : lookupStatus s name ≠ some EndpointStatus.InService) :
    submit s name inp ct = Except.error ClientError.EndpointNotReady ∧
    ∀ (t : InvocationToken) (s2 : ServiceState), submit s name inp ct ≠ Except.ok (t, s2) := by
  have he : submit s name inp ct = Except.error ClientError.EndpointNotReady := by
    cases hs : lookupStatus s name with
    | none => simp [submit, hs]
    | some st =>
      cases st
      case InService => exact absurd hs h
      all_goals simp [submit, hs]
  refine ⟨he, ?_⟩
  intro t s2 hok
  rw [he] at hok
  exact Except.noConfusion hok

/-- C3 witness: against a concrete service state whose only endpoint is in
the Creating state, submit fails with EndpointNotReady. -/
theorem c3_submit_requires_in_service_witness :
    submit { endpoints := [("HuggingFaceAsyncEndpoint", EndpointStatus.Creating)]
           , nextId := 0, objects := [] }
        "HuggingFaceAsyncEndpoint" input_s3_location "application/json"
      = Except.error ClientError.EndpointNotReady :=
  (c3_submit_requires_in_service
    { endpoints := [("HuggingFaceAsyncEndpoint", EndpointStatus.Creating)]
    , nextId := 0, objects := [] }
    "HuggingFaceAsyncEndpoint" input_s3_location "application/json" (by decide)).1

/-- C4: two successful submit calls in sequence both return tokens with
non-empty output locations, and the two output locations are distinct,
even for identical endpoint name, input location and content type. -/
theorem c4_submit_fresh_output_locations (s : ServiceState)
    (n1 i1 ct1 n2 i2 ct2 : String) (t1 t2 : InvocationToken) (s1 s2 : ServiceState)
    (h1 : submit s n1 i1 ct1 = Except.ok (t1, s1))
    (h2 : submit s1 n2 i2 ct2 = Except.ok (t2, s2)) :
    t1.output_location ≠ "" ∧ t2.output_location ≠ "" ∧
    t1.output_location ≠ t2.output_location := by
  obtain ⟨e1, k1, _⟩ := submit_ok_shape s n1 i1 ct1 t1 s1 h1
  obtain ⟨e2, _, _⟩ := submit_ok_shape s1 n2 i2 ct2 t2 s2 h2
  refine ⟨?_, ?_, ?_⟩
  · rw [e1]; exact outLoc_ne_empty _
  · rw [e2]; exact outLoc_ne_empty _
  · rw [e1, e2, k1]
    intro hcontra
    have := outLoc_injective _ _ hcontra
    omega

/-- A concrete ready service state used to witness C4. -/
def c4_state : ServiceState :=
  { endpoints := [("HuggingFaceAsyncEndpoint", EndpointStatus.InService)]
  , nextId := 0
  , objects := [(input_s3_location, "sample-bytes")] }

/-- C4 witness: two concrete submits from the ready state return the
distinct non-empty output locations for invocation ids 0 and 1. -/
theorem c4_submit_fresh_output_locations_witness :
    (InvocationToken.mk (outLoc 0) none).output_location ≠ "" ∧
    (InvocationToken.mk (outLoc 1) none).output_location ≠ "" ∧
    (InvocationToken.mk (outLoc 0) none).output_location
      ≠ (InvocationToken.mk (outLoc 1) none).output_location :=
  c4_submit_fresh_output_locations c4_state
    "HuggingFaceAsyncEndpoint" input_s3_location "application/json"
    "HuggingFaceAsyncEndpoint" input_s3_location "application/json"
    (InvocationToken.mk (outLoc 0) none) (InvocationToken.mk (outLoc 1) none)
    { c4_state with nextId := 1 } { c4_state with nextId := 2 }
    rfl rfl

/-- C5: await_ready with timeout 0 on an endpoint in the Creating state
fails with Timeout, and await_ready leaves the service state unchanged for
every timeout. -/
theorem c5_await_ready_zero_timeout (s : ServiceState) (name : String)
    (h : lookupStatus s name = some EndpointStatus.Creating) :
    await_ready s name 0 = (Except.error ClientError.Timeout, s) ∧
    ∀ t : Nat, (await_ready s name t).2 = s := by
  refine ⟨?_, await_ready_state_unchanged s name⟩
  simp [await_ready, h]

/-- C5 witness: on a concrete Creating endpoint, await_ready with timeout 0
fails with Timeout and returns the state unchanged. -/
theorem c5_await_ready_zero_timeout_witness :
    await_ready
        { endpoints := [("HuggingFaceAsyncEndpoint", EndpointStatus.Creating)]
        , nextId := 0, objects := [] }
        "HuggingFaceAsyncEndpoint" 0
      = (Except.error ClientError.Timeout,
         { endpoints := [("HuggingFaceAsyncEndpoint", EndpointStatus.Creating)]
         , nextId := 0, objects := [] }) :=
  (c5_await_ready_zero_timeout
    { endpoints := [("HuggingFaceAsyncEndpoint", EndpointStatus.Creating)]
    , nextId := 0, objects := [] }
    "HuggingFaceAsyncEndpoint" (by decide)).1

/-- C6: when no object is present at an output location and its distinct
failure location is not populated, poll_result returns Pending — never a
Failed result (and by construction never an error). -/
theorem c6_poll_absent_is_pending (objects : List (String × String)) (loc : String)
    (h1 : getObject objects loc = none)
    (h2 : getObject objects (failureLoc loc) = none) :
    poll_result objects loc = ResultState.Pending ∧
    ∀ e : String, poll_result objects loc ≠ ResultState.Failed e := by
  have hp : poll_result objects loc = ResultState.Pending := by
    simp [poll_result, h1, h2]
  refine ⟨hp, ?_⟩
  intro e he
  rw [hp] at he
  exact ResultState.noConfusion he

/-- C6 witness: polling a concrete location in an empty object store
returns Pending. -/
theorem c6_poll_absent_is_pending_witness :
    poll_result [] (outLoc 0) = ResultState.Pending :=
  (c6_poll_absent_is_pending [] (outLoc 0) rfl rfl).1
